import Mathlib

/-!
Verification of the conversational proposal script
(`Conversational_proposal.py`): a shallow embedding of its data model,
its two Bedrock-calling functions, its chat logging, its response
combiner and its detail-collection state machine, together with proofs
about them.

Python dictionaries are modelled as association lists (`List (String × α)`)
in insertion order; Python's JSON values as the inductive type `Val`.
-/

set_option autoImplicit false

namespace ConvProposal

/-- JSON-like values: the Python values the script manipulates
(results of `json.loads`, session-state entries, `None`).
Numbers are modelled as integers only; none of the script's logic
depends on fractional numbers. -/
inductive Val where
  | null
  | bool (b : Bool)
  | int (n : Int)
  | str (s : String)
  | arr (elems : List Val)
  | obj (entries : List (String × Val))
deriving Repr

/-- `Val.isObj v` is `true` exactly when `v` is a Python `dict`. -/
def Val.isObj : Val → Bool
  | .obj _ => true
  | _ => false

/-- Key membership in an association list: Python's `k in d` on a dict. -/
def keyMem {α : Type} (d : List (String × α)) (k : String) : Bool :=
  d.any (fun p => p.1 = k)

/-- First-match lookup in an association list: Python's `d[k]` /
`d.get(k)` on a dict (dicts built by the script never repeat a key). -/
def dictGet? {α : Type} (d : List (String × α)) (k : String) : Option α :=
  match d with
  | [] => none
  | (k', v) :: rest => if k' = k then some v else dictGet? rest k

/-- Python's `d[k] = v` on a dict: overwrite in place when the key is
present (its position is kept), append at the end otherwise. -/
def dictSet {α : Type} (d : List (String × α)) (k : String) (v : α) : List (String × α) :=
  match d with
  | [] => [(k, v)]
  | (k', v') :: rest => if k' = k then (k, v) :: rest else (k', v') :: dictSet rest k v

/-- Python's `{**a, **b}` / `a.update(b)`: start from `a` and set every
entry of `b` in order, so `b` wins on key collision. -/
def dictUnion {α : Type} (a b : List (String × α)) : List (String × α) :=
  b.foldl (fun acc kv => dictSet acc kv.1 kv.2) a

/-- The keys of an association list, in order. -/
def dictKeys {α : Type} (d : List (String × α)) : List String :=
  d.map Prod.fst

/-! ### A model of Python's `json.loads`

The script calls `json.loads` on the decoded response body and on the
text extracted from it.  We model it with an executable recursive-descent
parser over the character list, with a fuel argument for termination.
Fractional numbers and `\u` escapes are not needed by anything in the
script's logic and are rejected by the model parser. -/

/-- JSON whitespace. -/
def isWsChar (c : Char) : Bool :=
  c = ' ' || c = '\t' || c = '\n' || c = '\r'

/-- Drop leading JSON whitespace. -/
def skipWs : List Char → List Char
  | [] => []
  | c :: cs => if isWsChar c then skipWs cs else c :: cs

/-- Translation of a JSON string escape character. -/
def escChar? (c : Char) : Option Char :=
  if c = '"' then some '"'
  else if c = '\\' then some '\\'
  else if c = '/' then some '/'
  else if c = 'n' then some '\n'
  else if c = 't' then some '\t'
  else if c = 'r' then some '\r'
  else if c = 'b' then some (Char.ofNat 8)
  else if c = 'f' then some (Char.ofNat 12)
  else none

/-- Parse the body of a JSON string (after the opening quote); returns
the decoded characters and the remaining input after the closing quote. -/
def parseStrBody : List Char → Except String (List Char × List Char)
  | [] => .error "Unterminated string"
  | '"' :: rest => .ok ([], rest)
  | '\\' :: e :: rest =>
    match escChar? e with
    | some c =>
      match parseStrBody rest with
      | .ok (s, r) => .ok (c :: s, r)
      | .error msg => .error msg
    | none => .error "Unsupported escape"
  | ['\\'] => .error "Unterminated string"
  | c :: rest =>
    match parseStrBody rest with
    | .ok (s, r) => .ok (c :: s, r)
    | .error msg => .error msg

/-- Take a maximal run of decimal digits. -/
def takeDigits : List Char → List Char × List Char
  | [] => ([], [])
  | c :: cs =>
    if c.isDigit then
      let (ds, r) := takeDigits cs
      (c :: ds, r)
    else ([], c :: cs)

/-- Numeric value of a digit run. -/
def digitsToNat (ds : List Char) : Nat :=
  ds.foldl (fun n c => 10 * n + (c.toNat - 48)) 0

/-- Reject fractional/exponent syntax (unused by the script's data). -/
def checkNoFrac (v : Val) (r : List Char) : Except String (Val × List Char) :=
  match r with
  | c :: _ =>
    if c = '.' || c = 'e' || c = 'E' then .error "Fractional numbers unsupported"
    else .ok (v, r)
  | [] => .ok (v, r)

/-- Parse a JSON integer. -/
def parseNumber (cs : List Char) : Except String (Val × List Char) :=
  match cs with
  | '-' :: rest =>
    match takeDigits rest with
    | ([], _) => .error "Expecting digits"
    | (ds, r) => checkNoFrac (Val.int (-(digitsToNat ds : Int))) r
  | _ =>
    match takeDigits cs with
    | ([], _) => .error "Expecting digits"
    | (ds, r) => checkNoFrac (Val.int (digitsToNat ds : Int)) r

/-- Expect the given literal suffix characters. -/
def expectLit (lit : List Char) (v : Val) (cs : List Char) : Except String (Val × List Char) :=
  if lit.isPrefixOf cs then .ok (v, cs.drop lit.length) else .error "Expecting value"

/-- Python dict construction from parsed members: later duplicate keys
overwrite earlier ones in place. -/
def dedupEntries (entries : List (String × Val)) : List (String × Val) :=
  dictUnion [] entries

mutual

/-- Parse one JSON value (leading whitespace allowed). -/
def parseValue : Nat → List Char → Except String (Val × List Char)
  | 0, _ => .error "Out of fuel"
  | fuel + 1, cs => parseValueCore fuel (skipWs cs)

/-- Dispatch on the first significant character. -/
def parseValueCore : Nat → List Char → Except String (Val × List Char)
  | 0, _ => .error "Out of fuel"
  | _ + 1, [] => .error "Expecting value"
  | fuel + 1, '\x7b' :: rest =>
    (match parseObjBody fuel rest with
     | .ok (entries, r) => .ok (Val.obj (dedupEntries entries), r)
     | .error e => .error e)
  | fuel + 1, '[' :: rest =>
    (match parseArrBody fuel rest with
     | .ok (elems, r) => .ok (Val.arr elems, r)
     | .error e => .error e)
  | _ + 1, '"' :: rest =>
    (match parseStrBody rest with
     | .ok (s, r) => .ok (Val.str (String.mk s), r)
     | .error e => .error e)
  | _ + 1, 't' :: rest => expectLit ['r', 'u', 'e'] (Val.bool true) rest
  | _ + 1, 'f' :: rest => expectLit ['a', 'l', 's', 'e'] (Val.bool false) rest
  | _ + 1, 'n' :: rest => expectLit ['u', 'l', 'l'] Val.null rest
  | _ + 1, c :: rest =>
    if c = '-' || c.isDigit then parseNumber (c :: rest) else .error "Expecting value"

/-- Parse the inside of an object, after the opening brace. -/
def parseObjBody : Nat → List Char → Except String (List (String × Val) × List Char)
  | 0, _ => .error "Out of fuel"
  | fuel + 1, cs =>
    match skipWs cs with
    | '\x7d' :: rest => .ok ([], rest)
    | other => parseMembers fuel other

/-- Parse one or more `"key": value` members. -/
def parseMembers : Nat → List Char → Except String (List (String × Val) × List Char)
  | 0, _ => .error "Out of fuel"
  | fuel + 1, cs =>
    match skipWs cs with
    | '"' :: rest =>
      (match parseStrBody rest with
       | .error e => .error e
       | .ok (key, r1) =>
         match skipWs r1 with
         | ':' :: r2 =>
           (match parseValue fuel r2 with
            | .error e => .error e
            | .ok (v, r3) =>
              match skipWs r3 with
              | ',' :: r4 =>
                (match parseMembers fuel r4 with
                 | .error e => .error e
                 | .ok (entries, r5) => .ok ((String.mk key, v) :: entries, r5))
              | '\x7d' :: r4 => .ok ([(String.mk key, v)], r4)
              | _ => .error "Expecting comma or end of object")
         | _ => .error "Expecting colon")
    | _ => .error "Expecting property name"

/-- Parse the inside of an array, after the opening bracket. -/
def parseArrBody : Nat → List Char → Except String (List Val × List Char)
  | 0, _ => .error "Out of fuel"
  | fuel + 1, cs =>
    match skipWs cs with
    | ']' :: rest => .ok ([], rest)
    | other => parseElems fuel other

/-- Parse one or more array elements. -/
def parseElems : Nat → List Char → Except String (List Val × List Char)
  | 0, _ => .error "Out of fuel"
  | fuel + 1, cs =>
    match parseValue fuel cs with
    | .error e => .error e
    | .ok (v, r1) =>
      match skipWs r1 with
      | ',' :: r2 =>
        (match parseElems fuel r2 with
         | .error e => .error e
         | .ok (vs, r3) => .ok (v :: vs, r3))
      | ']' :: r2 => .ok ([v], r2)
      | _ => .error "Expecting comma or end of array"

end

/-- Model of Python's `json.loads`: parse one value and require that
only whitespace follows (Python raises `Extra data` otherwise). -/
def json_loads (s : String) : Except String Val :=
  match parseValue (8 * s.length + 32) s.toList with
  | .error e => .error e
  | .ok (v, rest) =>
    match skipWs rest with
    | [] => .ok v
    | _ => .error "Extra data"

/-! ### Registry, keywords, relevance classifier -/

/-- `REQUIRED_LEAD_DETAILS`: the fixed registry mapping each required
field name to its prompt question, in source order. -/
def REQUIRED_LEAD_DETAILS : List (String × String) :=
  [("Annual Revenue", "What is the approximate annual revenue of your business?"),
   ("Industry", "Which industry does your business operate in?"),
   ("Entity Type", "What is the entity type of your business (e.g., LLC, Corporation)?"),
   ("Publicly Traded", "Is your business publicly traded or privately held?"),
   ("Primary Accounting Software", "What is the primary accounting software your business uses (e.g., QuickBooks, Xero)?"),
   ("Months to Clean-Up", "How many months of bookkeeping clean-up are needed?"),
   ("Year to Be Filed", "Which financial year do you want to file taxes for?"),
   ("States to File Taxes", "Which states do you need to file taxes in?")]

/-- `TAX_KEYWORDS`: the fixed keyword list. -/
def TAX_KEYWORDS : List String := ["tax", "filing", "tax preparation", "tax filing"]

/-- Python's `keyword in s` substring test, on character lists. -/
def containsSub (needle : List Char) : List Char → Bool
  | [] => needle.isEmpty
  | c :: rest => needle.isPrefixOf (c :: rest) || containsSub needle rest

/-- Python's `s.lower()` (the inputs here are ASCII). -/
def lowerStr (s : String) : String := String.mk (s.toList.map Char.toLower)

/-- `is_tax_related(user_input)`: `any(keyword in user_input.lower() for
keyword in TAX_KEYWORDS)`. -/
def is_tax_related (user_input : String) : Bool :=
  TAX_KEYWORDS.any (fun keyword => containsSub keyword.toList (lowerStr user_input).toList)

/-! ### Session state and chat logging -/

/-- The Streamlit session state fields the script initialises and
mutates.  `asked_questions` is a Python `set`; we keep its elements in
insertion order, which is immaterial since it is only queried for
membership. -/
structure SessionState where
  chat_history : List (String × String)
  asked_questions : List String
  collected_details : List (String × Val)
  response : Option Val
  final_response : Option Val
  missing_keys : List String
  show_final_response : Bool
deriving Repr

/-- The freshly initialised session state. -/
def initState : SessionState :=
  { chat_history := [], asked_questions := [], collected_details := [],
    response := none, final_response := none, missing_keys := [],
    show_final_response := false }

/-- `log_chat(sender, message)`: append to the transcript, skipping a
Bot message that was already asked; record Bot messages in
`asked_questions`. -/
def log_chat (s : SessionState) (sender message : String) : SessionState :=
  if sender = "Bot" ∧ message ∈ s.asked_questions then s
  else
    let s' := { s with chat_history := s.chat_history ++ [(sender, message)] }
    if sender = "Bot" then { s' with asked_questions := s'.asked_questions ++ [message] }
    else s'

/-- Run a sequence of `log_chat` calls. -/
def run_log (s : SessionState) (calls : List (String × String)) : SessionState :=
  calls.foldl (fun st c => log_chat st c.1 c.2) s

/-! ### Response combiner -/

/-- `combine_responses(model_response, collected_details)`: copy the
model response and replace its `provided_details` entry with
`{**model_response.get("provided_details", {})}` — the commented-out
merge of `collected_details` is absent from the source.  A
`provided_details` value that is not a mapping makes the Python `**`
splat raise `TypeError`, modelled as `.error`. -/
def combine_responses (model_response : List (String × Val))
    (collected_details : List (String × Val)) : Except String (List (String × Val)) :=
  let combined_response := model_response
  match (dictGet? model_response "provided_details").getD (Val.obj []) with
  | Val.obj pd =>
    let combined_details := pd
    .ok (dictSet combined_response "provided_details" (Val.obj combined_details))
  | _ => .error "TypeError: argument after ** must be a mapping"

/-! ### The model-invocation boundary

`bedrock_client.invoke_model` and the subsequent `.read().decode("utf-8")`
are external; a call either raises some exception or yields a decoded
body string.  Everything after that point is the script's own logic. -/

/-- Outcome of `invoke_model(...)` followed by reading and decoding the
body: a raised exception (with its message) or the decoded body. -/
inductive InvokeOutcome where
  | raise (msg : String)
  | body (s : String)

/-- The `{"error": msg}` dictionaries the script builds. -/
def errObj (msg : String) : Val := Val.obj [("error", Val.str msg)]

/-- Exceptions distinguished by `analyze_details_with_bedrock`'s two
`except` clauses. -/
inductive PyExc where
  | jsonDecode (msg : String)
  | other (msg : String)

/-- Python `v.get(k, default)`: total on dicts, `AttributeError` on
anything else. -/
def pyGetDefault (v : Val) (k : String) (default : Val) : Except String Val :=
  match v with
  | .obj entries => .ok ((dictGet? entries k).getD default)
  | _ => .error "AttributeError: object has no attribute get"

/-- Python `v[0]`. -/
def pyIndex0 (v : Val) : Except String Val :=
  match v with
  | .arr (x :: _) => .ok x
  | .arr [] => .error "IndexError: list index out of range"
  | .str s => if s = "" then .error "IndexError: string index out of range"
              else .ok (Val.str (s.take 1))
  | .obj _ => .error "KeyError: 0"
  | .null => .error "TypeError: NoneType object is not subscriptable"
  | _ => .error "TypeError: object is not subscriptable"

/-- Python `v["text"]` (plain subscript, no default). -/
def pySubscriptText (v : Val) : Except String Val :=
  match v with
  | .obj entries =>
    match dictGet? entries "text" with
    | some t => .ok t
    | none => .error "KeyError: text"
  | _ => .error "TypeError: object is not subscriptable by str"

/-- `content[start_index:]` for `start_index = content.find("{")`:
the suffix of the text starting at the first `\x7b`, or `none` when
`find` returns `-1`. -/
def dropBeforeBrace (content : String) : Option String :=
  match content.toList.dropWhile (fun c => c ≠ '\x7b') with
  | [] => none
  | l => some (String.mk l)

/-- The `try:` block of `analyze_details_with_bedrock`, line by line:
empty-body check, `json.loads` of the body, `content[0]`'s `text`,
first-`\x7b` scan, `json.loads` of the JSON substring.  The prompt built
from `user_input`/`model_response` only feeds the external call and
cannot influence anything past `InvokeOutcome`. -/
def analyze_try (o : InvokeOutcome) : Except PyExc Val :=
  match o with
  | .raise msg => .error (.other msg)
  | .body response_body =>
    if response_body = "" then
      .ok (errObj "Empty response from the model")
    else
      match json_loads response_body with
      | .error e => .error (.jsonDecode e)
      | .ok full_response =>
        match pyGetDefault full_response "content" (Val.arr []) with
        | .error e => .error (.other e)
        | .ok content_list =>
          match pyIndex0 content_list with
          | .error e => .error (.other e)
          | .ok elem =>
            match pyGetDefault elem "text" (Val.str "") with
            | .error e => .error (.other e)
            | .ok content_val =>
              match content_val with
              | Val.str content =>
                match dropBeforeBrace content with
                | none => .ok (errObj "No JSON object found in model response")
                | some tail =>
                  match json_loads tail with
                  | .ok result_json => .ok result_json
                  | .error e => .error (.jsonDecode e)
              | _ => .error (.other "AttributeError: object has no attribute find")

/-- `analyze_details_with_bedrock(user_input, model_response)`: the try
block with its two `except` clauses. -/
def analyze_details_with_bedrock (user_input : String) (model_response : Val)
    (o : InvokeOutcome) : Val :=
  match analyze_try o with
  | .ok v => v
  | .error (.jsonDecode e) => errObj ("JSON parsing error: " ++ e)
  | .error (.other e) => errObj ("Exception occurred: " ++ e)

/-- Python's `str.strip()` with no argument: remove leading and
trailing whitespace. -/
def pyStrip (s : String) : String :=
  String.mk (((s.toList.dropWhile isWsChar).reverse.dropWhile isWsChar).reverse)

/-- The `try:` block of `generate_proposal`: empty/blank-body check,
`json.loads` of the body, `raw_content.get("content")[0]["text"]`, and
`json.loads` of the whole text — there is no first-`\x7b` scan here. -/
def generate_try (o : InvokeOutcome) : Except String Val :=
  match o with
  | .raise msg => .error msg
  | .body response_body =>
    if response_body = "" ∨ pyStrip response_body = "" then
      .ok (errObj "Empty or invalid response from the model")
    else
      match json_loads response_body with
      | .error e => .error e
      | .ok raw_content =>
        match pyGetDefault raw_content "content" Val.null with
        | .error e => .error e
        | .ok content_list =>
          match pyIndex0 content_list with
          | .error e => .error e
          | .ok elem =>
            match pySubscriptText elem with
            | .error e => .error e
            | .ok content_text =>
              match content_text with
              | Val.str t => json_loads t
              | _ => .error "TypeError: the JSON object must be str"

/-- `generate_proposal(user_input)`: the try block with its single
generic `except` clause. -/
def generate_proposal (user_input : String) (o : InvokeOutcome) : Val :=
  match generate_try o with
  | .ok v => v
  | .error e => errObj ("Exception occurred: " ++ e)

/-! ### Detail-collection state machine -/

/-- Python truthiness of the values the script tests with `if`. -/
def Val.truthy : Val → Bool
  | .null => false
  | .bool b => b
  | .int n => n ≠ 0
  | .str s => s ≠ ""
  | .arr l => !l.isEmpty
  | .obj d => !d.isEmpty

/-- The user interaction consumed by one invocation of
`collect_missing_details_interactive`: no button pressed, the per-field
Submit button with the text box's current value, or Confirm Details with
the review boxes' values (`edits` maps a field name to the new text; a
field absent from `edits` keeps the value it was displayed with). -/
inductive UIEvent where
  | idle
  | submit (value : String)
  | confirmDetails (edits : List (String × String))

/-- What one invocation of the collector renders: the pending question,
the review list of combined details, or the all-answered message. -/
inductive StepView where
  | asked (question : String)
  | review (combined : List (String × Val))
  | allAnswered
deriving Repr

/-- `collect_missing_details_interactive(missing_keys)`, one Streamlit
invocation: compute the unanswered keys; if any, ask the first one's
registry question (a key outside the registry raises `KeyError`) and
store a non-empty submitted answer; otherwise enter review (when
`collected_details` is non-empty) or combine directly.  The two
display-only Bedrock calls made after Confirm Details do not touch the
session state and are not modelled. -/
def collect_missing_details_interactive (missing_keys : List String) (ui : UIEvent)
    (s : SessionState) : Except String (SessionState × StepView) :=
  let unanswered_keys := missing_keys.filter (fun key => !keyMem s.collected_details key)
  match unanswered_keys with
  | key :: _ =>
    match dictGet? REQUIRED_LEAD_DETAILS key with
    | none => .error ("KeyError: " ++ key)
    | some question =>
      let s1 := log_chat s "Bot" question
      match ui with
      | .submit value =>
        if value ≠ "" then
          let s2 := { s1 with collected_details := dictSet s1.collected_details key (Val.str value) }
          let s3 := log_chat s2 "User" value
          .ok (s3, .asked question)
        else .ok (s1, .asked question)
      | _ => .ok (s1, .asked question)
  | [] =>
    if !s.collected_details.isEmpty then
      match s.response with
      | some (Val.obj rd) =>
        match (dictGet? rd "provided_details").getD (Val.obj []) with
        | Val.obj pd =>
          let combined_details := dictUnion pd s.collected_details
          match ui with
          | .confirmDetails edits =>
            let edited_details := combined_details.map (fun kv =>
              match dictGet? edits kv.1 with
              | some newv => (kv.1, Val.str newv)
              | none => kv)
            match combine_responses rd edited_details with
            | .ok fin =>
              .ok ({ s with collected_details := edited_details,
                            final_response := some (Val.obj fin) }, .review combined_details)
            | .error e => .error e
          | _ => .ok (s, .review combined_details)
        | _ => .error "TypeError: argument after ** must be a mapping"
      | _ => .error "AttributeError: object has no attribute get"
    else
      match s.response with
      | some (Val.obj rd) =>
        match combine_responses rd s.collected_details with
        | .ok fin => .ok ({ s with final_response := some (Val.obj fin) }, .allAnswered)
        | .error e => .error e
      | _ => .error "AttributeError: object has no attribute copy"

/-- Read a parsed `missing_details` list as field-name strings
(non-string entries would make the registry lookup in the collector
impossible; they are modelled as an error). -/
def valStrings (l : List Val) : Option (List String) :=
  l.mapM (fun v => match v with | Val.str s => some s | _ => none)

/-- The module-level flow after the Generate step (source lines
370-394): `if st.session_state.response:` tests Python truthiness, so
the whole block is skipped when the stored response is `None` or a
falsy value such as the empty dict; otherwise gate on `is_tax_related`:
on the tax path run the analyzer, stop on its error value, otherwise
store `provided_details`/`missing_details` and invoke the collector
when fields are missing; on the non-tax path set `final_response` to
the draft proposal directly. -/
def proposal_flow (user_input : String) (analyze_outcome : InvokeOutcome)
    (ui : UIEvent) (s : SessionState) : Except String SessionState :=
  match s.response with
  | none => .ok s
  | some response =>
    if !response.truthy then .ok s
    else if is_tax_related user_input then
      let analysis_result := analyze_details_with_bedrock user_input response analyze_outcome
      match pyGetDefault analysis_result "error" Val.null with
      | .error e => .error e
      | .ok errv =>
        if errv.truthy then .ok s
        else
          match pyGetDefault analysis_result "provided_details" (Val.obj []) with
          | .error e => .error e
          | .ok (Val.obj provided_details) =>
            match pyGetDefault analysis_result "missing_details" (Val.arr []) with
            | .error e => .error e
            | .ok (Val.arr md) =>
              match valStrings md with
              | some missing_keys =>
                let s1 := { s with
                  missing_keys := missing_keys,
                  collected_details := dictUnion s.collected_details provided_details }
                if missing_keys ≠ [] then
                  match collect_missing_details_interactive missing_keys ui s1 with
                  | .ok (s2, _) => .ok s2
                  | .error e => .error e
                else .ok s1
              | none => .error "TypeError: missing detail keys must be strings"
            | .ok _ => .error "TypeError: missing_details must be a list"
          | .ok _ => .error "TypeError: provided_details must be a mapping"
    else
      .ok { s with final_response := some response, show_final_response := true }

/-- The message texts of the transcript entries whose sender is `"Bot"`. -/
def botMessages (h : List (String × String)) : List String :=
  (h.filter (fun e => e.1 = "Bot")).map Prod.snd

/-- Invariant tying `asked_questions` to the transcript: Bot messages
are pairwise distinct and are exactly the members of `asked_questions`. -/
def LogInv (s : SessionState) : Prop :=
  (botMessages s.chat_history).Nodup ∧
  ∀ m, m ∈ botMessages s.chat_history ↔ m ∈ s.asked_questions

/-! ## Theorems -/

theorem dictGet?_dictSet_same {α : Type} (d : List (String × α)) (k : String) (v : α) :
    dictGet? (dictSet d k v) k = some v := by
  induction d with
  | nil => simp [dictSet, dictGet?]
  | cons p rest ih =>
    obtain ⟨k', v'⟩ := p
    by_cases h : k' = k <;> simp [dictSet, dictGet?, h, ih]

theorem dictGet?_dictSet_other {α : Type} (d : List (String × α)) (k k' : String) (v : α)
    (hne : k ≠ k') : dictGet? (dictSet d k v) k' = dictGet? d k' := by
  induction d with
  | nil => simp [dictSet, dictGet?, hne]
  | cons p rest ih =>
    obtain ⟨k0, v0⟩ := p
    by_cases h : k0 = k
    · subst h
      simp [dictSet, dictGet?, hne]
    · simp [dictSet, dictGet?, h, ih]

theorem keyMem_iff_mem_dictKeys {α : Type} (d : List (String × α)) (k : String) :
    keyMem d k = true ↔ k ∈ dictKeys d := by
  simp only [keyMem, dictKeys, List.any_eq_true, List.mem_map, decide_eq_true_eq]

theorem dictGet?_eq_none_of_not_mem {α : Type} (d : List (String × α)) (k : String)
    (h : k ∉ dictKeys d) : dictGet? d k = none := by
  induction d with
  | nil => rfl
  | cons p rest ih =>
    obtain ⟨k0, v0⟩ := p
    simp only [dictKeys, List.map_cons, List.mem_cons, not_or] at h
    have hne : k0 ≠ k := fun e => h.1 e.symm
    simp [dictGet?, hne, ih (by simpa [dictKeys] using h.2)]

/-- Right-biased union: when the right operand has no repeated keys,
lookup in `{**a, **b}` takes `b`'s value when present, else `a`'s. -/
theorem dictGet?_dictUnion {α : Type} (a b : List (String × α)) (k : String)
    (hnd : (dictKeys b).Nodup) :
    dictGet? (dictUnion a b) k = (dictGet? b k).orElse (fun _ => dictGet? a k) := by
  induction b generalizing a with
  | nil => simp [dictUnion, dictGet?]
  | cons p rest ih =>
    obtain ⟨k0, v0⟩ := p
    simp only [dictKeys, List.map_cons, List.nodup_cons] at hnd
    have hstep : dictUnion a ((k0, v0) :: rest) = dictUnion (dictSet a k0 v0) rest := rfl
    rw [hstep, ih (dictSet a k0 v0) (by simpa [dictKeys] using hnd.2)]
    by_cases hk : k0 = k
    · subst hk
      have hnotin : dictGet? rest k0 = none :=
        dictGet?_eq_none_of_not_mem rest k0 (by simpa [dictKeys] using hnd.1)
      simp [dictGet?, hnotin, dictGet?_dictSet_same]
    · simp [dictGet?, hk, dictGet?_dictSet_other a k0 k v0 hk]

/-! ### Chat logging -/

theorem botMessages_append_bot (h : List (String × String)) (m : String) :
    botMessages (h ++ [("Bot", m)]) = botMessages h ++ [m] := by
  simp [botMessages, List.filter_append]

theorem botMessages_append_other (h : List (String × String)) (sender m : String)
    (hs : sender ≠ "Bot") :
    botMessages (h ++ [(sender, m)]) = botMessages h := by
  simp [botMessages, List.filter_append, hs]

theorem log_chat_bot_asked (s : SessionState) (m : String) (h : m ∈ s.asked_questions) :
    log_chat s "Bot" m = s := by
  simp [log_chat, h]

theorem log_chat_bot_new (s : SessionState) (m : String) (h : m ∉ s.asked_questions) :
    log_chat s "Bot" m =
      { s with chat_history := s.chat_history ++ [("Bot", m)],
               asked_questions := s.asked_questions ++ [m] } := by
  simp [log_chat, h]

theorem log_chat_other (s : SessionState) (sender m : String) (h : sender ≠ "Bot") :
    log_chat s sender m = { s with chat_history := s.chat_history ++ [(sender, m)] } := by
  simp [log_chat, h]

theorem logInv_log_chat (s : SessionState) (sender m : String) (h : LogInv s) :
    LogInv (log_chat s sender m) := by
  obtain ⟨hnd, hiff⟩ := h
  by_cases hb : sender = "Bot"
  · subst hb
    by_cases hm : m ∈ s.asked_questions
    · rw [log_chat_bot_asked s m hm]; exact ⟨hnd, hiff⟩
    · rw [log_chat_bot_new s m hm]
      constructor
      · rw [botMessages_append_bot]
        refine List.Nodup.append hnd (List.nodup_singleton m) ?_
        intro x hx hx'
        rw [List.mem_singleton] at hx'
        subst hx'
        exact hm ((hiff x).1 hx)
      · intro m'
        simp [botMessages_append_bot, hiff m']
  · rw [log_chat_other s sender m hb]
    exact ⟨by simpa [botMessages_append_other _ _ _ hb] using hnd,
           fun m' => by simpa [botMessages_append_other _ _ _ hb] using hiff m'⟩

theorem logInv_run_log (calls : List (String × String)) (s : SessionState) (h : LogInv s) :
    LogInv (run_log s calls) := by
  induction calls generalizing s with
  | nil => exact h
  | cons c rest ih => exact ih (log_chat s c.1 c.2) (logInv_log_chat s c.1 c.2 h)

theorem logInv_init : LogInv initState := by
  constructor <;> simp [initState, botMessages]

theorem mem_chat_of_mem_botMessages (h : List (String × String)) (m : String)
    (hm : m ∈ botMessages h) : ("Bot", m) ∈ h := by
  simp only [botMessages, List.mem_map] at hm
  obtain ⟨p, hp, hsnd⟩ := hm
  have h1 : p.1 = "Bot" := by simpa using List.of_mem_filter hp
  have h2 := List.mem_of_mem_filter hp
  obtain ⟨a, b⟩ := p
  simp only at h1 hsnd
  subst h1; subst hsnd
  exact h2

/-- C5: starting from the empty session, no two Bot transcript entries
carry the same message text; a `log_chat("Bot", m)` with `m` already in
`asked_questions` changes nothing, and one with `m` not yet asked
appends the entry and records `m`. -/
theorem bot_messages_never_duplicated (calls : List (String × String))
    (s : SessionState) (m : String) :
    (botMessages (run_log initState calls).chat_history).Nodup ∧
    (m ∈ s.asked_questions → log_chat s "Bot" m = s) ∧
    (m ∉ s.asked_questions →
      log_chat s "Bot" m =
        { s with chat_history := s.chat_history ++ [("Bot", m)],
                 asked_questions := s.asked_questions ++ [m] }) :=
  ⟨(logInv_run_log calls initState logInv_init).1,
   fun h => log_chat_bot_asked s m h,
   fun h => log_chat_bot_new s m h⟩

/-- Closed instance of C5's theorem: a repeated Bot question is logged
once, and re-logging it leaves the state untouched. -/
theorem bot_messages_never_duplicated_witness :
    (botMessages (run_log initState [("Bot", "q1"), ("User", "a"), ("Bot", "q1")]).chat_history).Nodup ∧
    log_chat (run_log initState [("Bot", "q1")]) "Bot" "q1" = run_log initState [("Bot", "q1")] :=
  ⟨(bot_messages_never_duplicated [("Bot", "q1"), ("User", "a"), ("Bot", "q1")] initState "x").1,
   (bot_messages_never_duplicated [] (run_log initState [("Bot", "q1")]) "q1").2.1 (by decide)⟩

/-- C10: de-duplication applies only to Bot messages — any other sender's
message is appended unconditionally with `asked_questions` untouched,
duplicate User entries can occur, and every member of `asked_questions`
is a Bot transcript message. -/
theorem non_bot_messages_logged_unconditionally (s : SessionState)
    (sender m : String) (calls : List (String × String)) (m' : String) :
    (sender ≠ "Bot" →
      log_chat s sender m = { s with chat_history := s.chat_history ++ [(sender, m)] }) ∧
    (run_log initState [("User", "hi"), ("User", "hi")]).chat_history
        = [("User", "hi"), ("User", "hi")] ∧
    (m' ∈ (run_log initState calls).asked_questions →
      ("Bot", m') ∈ (run_log initState calls).chat_history) :=
  ⟨fun h => log_chat_other s sender m h,
   by decide,
   fun h => mem_chat_of_mem_botMessages _ m'
     (((logInv_run_log calls initState logInv_init).2 m').2 h)⟩

/-- Closed instance of C10's theorem: a duplicate User message is
appended twice. -/
theorem non_bot_messages_logged_unconditionally_witness :
    (run_log initState [("User", "hi")]).chat_history ++ [("User", "hi")]
      = [("User", "hi"), ("User", "hi")] :=
  by
    have h := (non_bot_messages_logged_unconditionally
      (run_log initState [("User", "hi")]) "User" "hi" [] "x").1 (by decide)
    have h2 : (log_chat (run_log initState [("User", "hi")]) "User" "hi").chat_history
        = (run_log initState [("User", "hi")]).chat_history ++ [("User", "hi")] := by
      rw [h]
    rw [← h2]
    decide

/-! ### The collector -/

theorem find?_eq_head?_filter {α : Type} (p : α → Bool) (l : List α) :
    l.find? p = (l.filter p).head? := by
  induction l with
  | nil => rfl
  | cons a rest ih =>
    by_cases h : p a
    · rw [List.find?_cons_of_pos _ h, List.filter_cons_of_pos h]
      rfl
    · rw [List.find?_cons_of_neg _ h, List.filter_cons_of_neg h, ih]

/-- C6: whenever some field of `missing_keys` is still unanswered, the
collector asks the registry question of the first such field (in the
extractor-returned order); that field is never one already present in
`collected_details`. -/
theorem collect_asks_first_unanswered (missing_keys : List String) (ui : UIEvent)
    (s : SessionState) (key question : String)
    (hfirst : missing_keys.find? (fun k => !keyMem s.collected_details k) = some key)
    (hq : dictGet? REQUIRED_LEAD_DETAILS key = some question) :
    (∃ s', collect_missing_details_interactive missing_keys ui s = .ok (s', .asked question)) ∧
    key ∈ missing_keys ∧ keyMem s.collected_details key = false := by
  have hmem := List.mem_of_find?_eq_some hfirst
  have hkey : keyMem s.collected_details key = false := by
    have hk := @List.find?_some String (fun k => !keyMem s.collected_details k)
      key missing_keys hfirst
    simpa using hk
  rw [find?_eq_head?_filter] at hfirst
  cases hu : missing_keys.filter (fun k => !keyMem s.collected_details k) with
  | nil => rw [hu] at hfirst; simp at hfirst
  | cons a t =>
    rw [hu] at hfirst
    simp only [List.head?_cons, Option.some.injEq] at hfirst
    subst hfirst
    refine ⟨?_, hmem, hkey⟩
    simp only [collect_missing_details_interactive, hu, hq]
    cases ui with
    | idle => exact ⟨_, rfl⟩
    | submit value =>
      by_cases hv : value = "" <;> simp [hv]
    | confirmDetails edits => exact ⟨_, rfl⟩

/-- Closed instance of C6's theorem: with `Industry` already collected,
the question asked is the one for `Annual Revenue`. -/
theorem collect_asks_first_unanswered_witness :
    ∃ s', collect_missing_details_interactive ["Industry", "Annual Revenue"] .idle
        { initState with collected_details := [("Industry", Val.str "Consulting")] }
      = .ok (s', .asked "What is the approximate annual revenue of your business?") :=
  (collect_asks_first_unanswered ["Industry", "Annual Revenue"] .idle
    { initState with collected_details := [("Industry", Val.str "Consulting")] }
    "Annual Revenue" "What is the approximate annual revenue of your business?"
    (by decide) (by decide)).1

/-- C7: with the pending question already asked, submitting a blank
answer returns the state unchanged, still showing the same question,
and raises no error. -/
theorem collect_blank_submit_noop (missing_keys : List String) (s : SessionState)
    (key question : String)
    (hfirst : missing_keys.find? (fun k => !keyMem s.collected_details k) = some key)
    (hq : dictGet? REQUIRED_LEAD_DETAILS key = some question)
    (hasked : question ∈ s.asked_questions) :
    collect_missing_details_interactive missing_keys (.submit "") s = .ok (s, .asked question) := by
  rw [find?_eq_head?_filter] at hfirst
  cases hu : missing_keys.filter (fun k => !keyMem s.collected_details k) with
  | nil => rw [hu] at hfirst; simp at hfirst
  | cons a t =>
    rw [hu] at hfirst
    simp only [List.head?_cons, Option.some.injEq] at hfirst
    subst hfirst
    simp only [collect_missing_details_interactive, hu, hq, log_chat_bot_asked s question hasked]
    simp

/-- Closed instance of C7's theorem. -/
theorem collect_blank_submit_noop_witness :
    collect_missing_details_interactive ["Industry"] (.submit "")
        { initState with
            asked_questions := ["Which industry does your business operate in?"],
            chat_history := [("Bot", "Which industry does your business operate in?")] }
      = .ok ({ initState with
                 asked_questions := ["Which industry does your business operate in?"],
                 chat_history := [("Bot", "Which industry does your business operate in?")] },
             .asked "Which industry does your business operate in?") :=
  collect_blank_submit_noop ["Industry"] _ "Industry"
    "Which industry does your business operate in?" (by decide) (by decide) (by decide)

/-- C8: when every missing field is collected and `collected_details` is
non-empty, the collector enters Review and presents
`{**draft.provided_details, **collected_details}`, in which the
collected value wins on any key collision. -/
theorem collect_review_union (missing_keys : List String) (s : SessionState)
    (rd pd : List (String × Val))
    (hall : ∀ k ∈ missing_keys, keyMem s.collected_details k = true)
    (hcd : s.collected_details ≠ [])
    (hresp : s.response = some (Val.obj rd))
    (hpd : (dictGet? rd "provided_details").getD (Val.obj []) = Val.obj pd)
    (hnd : (dictKeys s.collected_details).Nodup) :
    collect_missing_details_interactive missing_keys .idle s =
      .ok (s, .review (dictUnion pd s.collected_details)) ∧
    ∀ k, dictGet? (dictUnion pd s.collected_details) k =
      (dictGet? s.collected_details k).orElse (fun _ => dictGet? pd k) := by
  have hfilter : missing_keys.filter (fun k => !keyMem s.collected_details k) = [] := by
    rw [List.filter_eq_nil_iff]
    intro k hk
    simp [hall k hk]
  have hne : s.collected_details.isEmpty = false := by
    cases hc : s.collected_details with
    | nil => exact absurd hc hcd
    | cons a t => rfl
  constructor
  · simp only [collect_missing_details_interactive, hfilter, hne, hresp, hpd]
    rfl
  · intro k
    exact dictGet?_dictUnion pd s.collected_details k hnd

/-- Closed instance of C8's theorem: the collected `Industry` value
overrides the model-provided one in the review list. -/
theorem collect_review_union_witness :
    (collect_missing_details_interactive ["Industry"] .idle
        { initState with
            collected_details := [("Industry", Val.str "Consulting")],
            response := some (Val.obj
              [("provided_details", Val.obj [("Industry", Val.str "Farming")])]) }
      = .ok ({ initState with
                 collected_details := [("Industry", Val.str "Consulting")],
                 response := some (Val.obj
                   [("provided_details", Val.obj [("Industry", Val.str "Farming")])]) },
             .review [("Industry", Val.str "Consulting")])) ∧
    dictGet? [("Industry", Val.str "Consulting")] "Industry" = some (Val.str "Consulting") := by
  have h := collect_review_union ["Industry"]
    { initState with
        collected_details := [("Industry", Val.str "Consulting")],
        response := some (Val.obj
          [("provided_details", Val.obj [("Industry", Val.str "Farming")])]) }
    [("provided_details", Val.obj [("Industry", Val.str "Farming")])]
    [("Industry", Val.str "Farming")]
    (by decide) (by simp) (by rfl) (by rfl) (by decide)
  refine ⟨h.1, by rfl⟩

/-! ### The combiner -/

/-- C1 (amended): provided the draft's `provided_details` value, when
present, is itself a mapping, `combine_responses` returns a shallow copy
of `model_response` whose `provided_details` equals `model_response`'s
own `provided_details` (the empty mapping when absent); nothing from
`collected_details` enters the result, which is fully determined by
`model_response` alone. -/
theorem combine_responses_shallow_copy (mr cd cd' : List (String × Val))
    (pd : List (String × Val))
    (hpd : (dictGet? mr "provided_details").getD (Val.obj []) = Val.obj pd) :
    combine_responses mr cd = .ok (dictSet mr "provided_details" (Val.obj pd)) ∧
    dictGet? (dictSet mr "provided_details" (Val.obj pd)) "provided_details"
      = some (Val.obj pd) ∧
    (∀ k, k ≠ "provided_details" →
      dictGet? (dictSet mr "provided_details" (Val.obj pd)) k = dictGet? mr k) ∧
    combine_responses mr cd = combine_responses mr cd' :=
  ⟨by simp only [combine_responses, hpd],
   dictGet?_dictSet_same mr _ _,
   fun k hk => dictGet?_dictSet_other mr "provided_details" k (Val.obj pd) (Ne.symm hk),
   rfl⟩

/-- Closed instance of C1's amended theorem. -/
theorem combine_responses_shallow_copy_witness :
    combine_responses [("a", Val.int 1), ("provided_details", Val.obj [("x", Val.str "y")])]
        [("k", Val.str "v")]
      = .ok [("a", Val.int 1), ("provided_details", Val.obj [("x", Val.str "y")])] ∧
    combine_responses [("a", Val.int 1), ("provided_details", Val.obj [("x", Val.str "y")])]
        [("k", Val.str "v")]
      = combine_responses
          [("a", Val.int 1), ("provided_details", Val.obj [("x", Val.str "y")])] [] := by
  have h := combine_responses_shallow_copy
    [("a", Val.int 1), ("provided_details", Val.obj [("x", Val.str "y")])]
    [("k", Val.str "v")] [] [("x", Val.str "y")] (by rfl)
  exact ⟨h.1.trans (by rfl), h.2.2.2⟩

/-- C1 counterexample: on the dictionary whose `provided_details` value
is the integer `5`, the Python `**` splat raises `TypeError`, so
`combine_responses` does not return a shallow copy of its input. -/
theorem combine_responses_typeerror_counterexample :
    combine_responses [("provided_details", Val.int 5)] []
      = .error "TypeError: argument after ** must be a mapping" := rfl

/-! ### The relevance classifier and the non-tax path -/

theorem containsSub_substring_spec (n : List Char) (h : List Char) :
    containsSub n h = true ↔ n <:+: h := by
  induction h with
  | nil =>
    simp [containsSub, List.isEmpty_iff]
  | cons c rest ih =>
    simp [containsSub, List.isPrefixOf_iff_prefix, ih, List.infix_cons_iff]

/-- C9 (amended): `is_tax_related(text)` is true iff the lowercased
text contains one of `TAX_KEYWORDS` as a substring; it is false on
`"We need help with payroll only"`; and when it is false and the stored
draft is Python-truthy (a non-empty value), the flow never invokes the
detail-collection path (its result ignores the analyzer outcome and the
UI event entirely) and sets `final_response` directly to the draft
proposal.  A falsy stored draft makes the
`if st.session_state.response:` gate skip the block entirely. -/
theorem is_tax_related_gate (text u : String) (o o' : InvokeOutcome)
    (ui ui' : UIEvent) (s : SessionState) (r : Val)
    (hresp : s.response = some r) (htr : r.truthy = true)
    (htax : is_tax_related u = false) :
    (is_tax_related text = true ↔
      ∃ kw ∈ TAX_KEYWORDS, kw.toList <:+: (lowerStr text).toList) ∧
    is_tax_related "We need help with payroll only" = false ∧
    proposal_flow u o ui s
      = .ok { s with final_response := some r, show_final_response := true } ∧
    proposal_flow u o ui s = proposal_flow u o' ui' s := by
  refine ⟨?_, by decide, ?_, ?_⟩
  · simp only [is_tax_related, List.any_eq_true]
    constructor
    · rintro ⟨kw, hmem, hsub⟩
      exact ⟨kw, hmem, (containsSub_substring_spec _ _).1 hsub⟩
    · rintro ⟨kw, hmem, hinf⟩
      exact ⟨kw, hmem, (containsSub_substring_spec _ _).2 hinf⟩
  · simp [proposal_flow, hresp, htr, htax]
  · simp [proposal_flow, hresp, htr, htax]

/-- C9 counterexample: the model can return the falsy draft `\x7b\x7d`
(reply text `"\x7b\x7d"` carries no `"error"` key, so it is stored as
the response); on a non-tax input the `if st.session_state.response:`
gate at line 370 then skips the whole block, leaving `final_response`
unset instead of set to the draft. -/
theorem falsy_draft_skips_flow_counterexample :
    is_tax_related "We need help with payroll only" = false ∧
    proposal_flow "We need help with payroll only" (.raise "boom") .idle
        { initState with response := some (Val.obj []) }
      = .ok { initState with response := some (Val.obj []) } ∧
    ({ initState with response := some (Val.obj []) } : SessionState).final_response
      = none :=
  ⟨by decide, rfl, rfl⟩

/-- Closed instance of C9's amended theorem: with a non-tax input and a
truthy draft the flow sets `final_response` to the draft and is
independent of the analyzer outcome. -/
theorem is_tax_related_gate_witness :
    proposal_flow "We need help with payroll only" (.raise "boom") .idle
        { initState with response := some (Val.str "draft") }
      = .ok { initState with
                response := some (Val.str "draft")
                final_response := some (Val.str "draft")
                show_final_response := true } ∧
    proposal_flow "We need help with payroll only" (.raise "boom") .idle
        { initState with response := some (Val.str "draft") }
      = proposal_flow "We need help with payroll only" (.body "") (.submit "x")
        { initState with response := some (Val.str "draft") } := by
  have h := is_tax_related_gate "x" "We need help with payroll only"
    (.raise "boom") (.body "") .idle (.submit "x")
    { initState with response := some (Val.str "draft") } (Val.str "draft")
    (by rfl) (by decide) (by decide)
  exact ⟨h.2.2.1, h.2.2.2⟩

/-! ### The external-call boundary: JSON extraction and error shaping -/

theorem skipWs_brace (cs : List Char) : skipWs ('\x7b' :: cs) = '\x7b' :: cs := rfl

theorem parseValueCore_brace_isObj (fuel : Nat) (rest r : List Char) (v : Val)
    (h : parseValueCore fuel ('\x7b' :: rest) = .ok (v, r)) : v.isObj = true := by
  cases fuel with
  | zero => simp [parseValueCore] at h
  | succ n =>
    rw [parseValueCore] at h
    cases hp : parseObjBody n rest with
    | ok pr =>
      obtain ⟨entries, r'⟩ := pr
      rw [hp] at h
      simp only [Except.ok.injEq, Prod.mk.injEq] at h
      obtain ⟨hv, _⟩ := h
      subst hv
      rfl
    | error e => rw [hp] at h; simp at h

theorem parseValue_brace_isObj (fuel : Nat) (cs r : List Char) (v : Val)
    (h : parseValue fuel ('\x7b' :: cs) = .ok (v, r)) : v.isObj = true := by
  cases fuel with
  | zero => simp [parseValue] at h
  | succ n =>
    rw [parseValue, skipWs_brace] at h
    exact parseValueCore_brace_isObj n cs r v h

/-- A successful `json_loads` of a text starting with `\x7b` yields a dict. -/
theorem json_loads_brace_isObj (s : String) (v : Val) (cs : List Char)
    (hh : s.toList = '\x7b' :: cs) (hok : json_loads s = .ok v) : v.isObj = true := by
  unfold json_loads at hok
  rw [hh] at hok
  cases hp : parseValue (8 * s.length + 32) ('\x7b' :: cs) with
  | error e => rw [hp] at hok; simp at hok
  | ok pr =>
    obtain ⟨v0, rest⟩ := pr
    rw [hp] at hok
    dsimp only at hok
    cases hs : skipWs rest with
    | nil =>
      rw [hs] at hok
      simp only [Except.ok.injEq] at hok
      subst hok
      exact parseValue_brace_isObj _ cs rest v0 hp
    | cons a t => rw [hs] at hok; simp at hok

/-- The substring kept by the first-`\x7b` scan starts with `\x7b`. -/
theorem dropBeforeBrace_toList (content tail : String)
    (h : dropBeforeBrace content = some tail) :
    ∃ cs, tail.toList = '\x7b' :: cs := by
  unfold dropBeforeBrace at h
  cases hd : content.toList.dropWhile (fun c => decide (c ≠ '\x7b')) with
  | nil => rw [hd] at h; simp at h
  | cons c cs =>
    rw [hd] at h
    have hnot := List.head?_dropWhile_not (fun c => decide (c ≠ '\x7b')) content.toList
    rw [hd] at hnot
    simp only [List.head?_cons] at hnot
    have hc : c = '\x7b' := by simpa using hnot
    subst hc
    simp only [Option.some.injEq] at h
    subst h
    exact ⟨cs, rfl⟩

/-- Every successful run of `analyze_details_with_bedrock`'s try block
yields a dict: the early returns build error dicts and the final
`json.loads` input starts at a `\x7b`. -/
theorem analyze_try_ok_isObj (o : InvokeOutcome) (v : Val)
    (h : analyze_try o = .ok v) : v.isObj = true := by
  cases o with
  | raise m => simp [analyze_try] at h
  | body b =>
    simp only [analyze_try] at h
    by_cases hb : b = ""
    · rw [if_pos hb] at h
      simp only [Except.ok.injEq] at h; subst h; rfl
    · rw [if_neg hb] at h
      cases hjs : json_loads b with
      | error e => rw [hjs] at h; simp at h
      | ok full_response =>
        rw [hjs] at h
        dsimp only at h
        cases hc : pyGetDefault full_response "content" (Val.arr []) with
        | error e => rw [hc] at h; simp at h
        | ok content_list =>
          rw [hc] at h
          dsimp only at h
          cases hi : pyIndex0 content_list with
          | error e => rw [hi] at h; simp at h
          | ok elem =>
            rw [hi] at h
            dsimp only at h
            cases ht : pyGetDefault elem "text" (Val.str "") with
            | error e => rw [ht] at h; simp at h
            | ok content_val =>
              rw [ht] at h
              dsimp only at h
              cases content_val with
              | str content =>
                dsimp only at h
                cases hdb : dropBeforeBrace content with
                | none => rw [hdb] at h; simp only [Except.ok.injEq] at h; subst h; rfl
                | some tail =>
                  rw [hdb] at h
                  dsimp only at h
                  cases hjt : json_loads tail with
                  | error e => rw [hjt] at h; simp at h
                  | ok result_json =>
                    rw [hjt] at h
                    dsimp only at h
                    simp only [Except.ok.injEq] at h
                    subst h
                    obtain ⟨cs, hcs⟩ := dropBeforeBrace_toList content tail hdb
                    exact json_loads_brace_isObj tail result_json cs hcs hjt
              | null => simp at h
              | bool bb => simp at h
              | int n => simp at h
              | arr l => simp at h
              | obj d => simp at h

/-- C4 (amended): neither call lets an exception escape (both are total
functions of the invocation outcome); `analyze_details_with_bedrock`
always returns a dictionary; `generate_proposal` returns either a
dictionary or, when its whole-text parse succeeds on a non-object JSON
value, that parsed value. -/
theorem calls_never_raise (u u' : String) (m : Val) (o : InvokeOutcome) :
    (analyze_details_with_bedrock u m o).isObj = true ∧
    ((generate_proposal u' o).isObj = true ∨
      generate_try o = .ok (generate_proposal u' o)) := by
  constructor
  · cases h : analyze_try o with
    | ok v =>
      simp only [analyze_details_with_bedrock, h]
      exact analyze_try_ok_isObj o v h
    | error e =>
      simp only [analyze_details_with_bedrock, h]
      cases e <;> rfl
  · cases h : generate_try o with
    | ok v =>
      right
      simp only [generate_proposal, h]
    | error e =>
      left
      simp only [generate_proposal, h]
      rfl

/-- C4 counterexample: a reply whose text is the JSON value `42` makes
`generate_proposal` return the integer `42`, not a dictionary. -/
theorem generate_nondict_counterexample :
    generate_proposal "input"
        (.body "\x7b\"content\":[\x7b\"text\":\"42\"\x7d]\x7d")
      = Val.int 42 ∧
    Val.isObj (Val.int 42) = false :=
  ⟨rfl, rfl⟩

/-- C2 (amended): the first-`\x7b` scan belongs to
`analyze_details_with_bedrock` only — its structured result is the JSON
value parsed from the reply-text suffix starting at the first `\x7b` —
while `generate_proposal` parses the entire reply text, so prose before
the brace is tolerated only by the analyzer. -/
theorem json_extraction_first_brace (u u' : String) (m : Val) (b b' : String)
    (fr cl elem fr' cl' elem' : Val) (content content' tail : String) (v v' : Val)
    (hb : ¬ b = "") (hjs : json_loads b = .ok fr)
    (hc : pyGetDefault fr "content" (Val.arr []) = .ok cl)
    (hi : pyIndex0 cl = .ok elem)
    (ht : pyGetDefault elem "text" (Val.str "") = .ok (Val.str content))
    (hdb : dropBeforeBrace content = some tail)
    (hjt : json_loads tail = .ok v)
    (hb' : ¬ (b' = "" ∨ pyStrip b' = ""))
    (hjs' : json_loads b' = .ok fr')
    (hc' : pyGetDefault fr' "content" Val.null = .ok cl')
    (hi' : pyIndex0 cl' = .ok elem')
    (ht' : pySubscriptText elem' = .ok (Val.str content'))
    (hjt' : json_loads content' = .ok v') :
    analyze_details_with_bedrock u m (.body b) = v ∧
    generate_proposal u' (.body b') = v' := by
  constructor
  · have htry : analyze_try (.body b) = .ok v := by
      simp only [analyze_try, if_neg hb, hjs, hc, hi, ht, hdb, hjt]
    simp only [analyze_details_with_bedrock, htry]
  · have htry : generate_try (.body b') = .ok v' := by
      simp only [generate_try, if_neg hb', hjs', hc', hi', ht', hjt']
    simp only [generate_proposal, htry]

/-- Closed instance of C2's amended theorem: the analyzer parses the
`"Sure! \x7b...\x7d"` reply from its first brace; the generator parses a
reply that is pure JSON. -/
theorem json_extraction_first_brace_witness :
    analyze_details_with_bedrock "t" (Val.obj [])
        (.body "\x7b\"content\":[\x7b\"text\":\"Sure! \x7b\\\"Proposal Description\\\":\\\"Tax prep\\\"\x7d\"\x7d]\x7d")
      = Val.obj [("Proposal Description", Val.str "Tax prep")] ∧
    generate_proposal "t"
        (.body "\x7b\"content\":[\x7b\"text\":\"\x7b\\\"k\\\":\\\"v\\\"\x7d\"\x7d]\x7d")
      = Val.obj [("k", Val.str "v")] :=
  json_extraction_first_brace "t" "t" (Val.obj [])
    "\x7b\"content\":[\x7b\"text\":\"Sure! \x7b\\\"Proposal Description\\\":\\\"Tax prep\\\"\x7d\"\x7d]\x7d"
    "\x7b\"content\":[\x7b\"text\":\"\x7b\\\"k\\\":\\\"v\\\"\x7d\"\x7d]\x7d"
    (Val.obj [("content", Val.arr [Val.obj [("text",
      Val.str "Sure! \x7b\"Proposal Description\":\"Tax prep\"\x7d")]])])
    (Val.arr [Val.obj [("text", Val.str "Sure! \x7b\"Proposal Description\":\"Tax prep\"\x7d")]])
    (Val.obj [("text", Val.str "Sure! \x7b\"Proposal Description\":\"Tax prep\"\x7d")])
    (Val.obj [("content", Val.arr [Val.obj [("text", Val.str "\x7b\"k\":\"v\"\x7d")]])])
    (Val.arr [Val.obj [("text", Val.str "\x7b\"k\":\"v\"\x7d")]])
    (Val.obj [("text", Val.str "\x7b\"k\":\"v\"\x7d")])
    "Sure! \x7b\"Proposal Description\":\"Tax prep\"\x7d"
    "\x7b\"k\":\"v\"\x7d"
    "\x7b\"Proposal Description\":\"Tax prep\"\x7d"
    (Val.obj [("Proposal Description", Val.str "Tax prep")])
    (Val.obj [("k", Val.str "v")])
    (by decide) rfl rfl rfl rfl rfl rfl (by decide) rfl rfl rfl rfl rfl

/-- C2 counterexample: on the same `"Sure! \x7b...\x7d"` reply the
analyzer succeeds but `generate_proposal` returns an error dictionary
instead of the parsed object, because it never scans for the brace. -/
theorem first_brace_scan_counterexample :
    analyze_details_with_bedrock "t" (Val.obj [])
        (.body "\x7b\"content\":[\x7b\"text\":\"Sure! \x7b\\\"Proposal Description\\\":\\\"Tax prep\\\"\x7d\"\x7d]\x7d")
      = Val.obj [("Proposal Description", Val.str "Tax prep")] ∧
    generate_proposal "t"
        (.body "\x7b\"content\":[\x7b\"text\":\"Sure! \x7b\\\"Proposal Description\\\":\\\"Tax prep\\\"\x7d\"\x7d]\x7d")
      = errObj "Exception occurred: Expecting value" ∧
    errObj "Exception occurred: Expecting value"
      ≠ Val.obj [("Proposal Description", Val.str "Tax prep")] :=
  ⟨rfl, rfl, by simp [errObj]⟩

/-- C3 (amended): on an empty decoded body
`analyze_details_with_bedrock` returns exactly
`\x7b"error": "Empty response from the model"\x7d` and the flow leaves the
session state untouched, while `generate_proposal` returns
`\x7b"error": "Empty or invalid response from the model"\x7d`. -/
theorem empty_body_error (u u' u'' : String) (m : Val) (s : SessionState) (r : Val)
    (ui : UIEvent) (hresp : s.response = some r) (htax : is_tax_related u'' = true) :
    analyze_details_with_bedrock u m (.body "") = errObj "Empty response from the model" ∧
    generate_proposal u' (.body "") = errObj "Empty or invalid response from the model" ∧
    proposal_flow u'' (.body "") ui s = .ok s := by
  refine ⟨rfl, rfl, ?_⟩
  have ha : analyze_details_with_bedrock u'' r (.body "")
      = errObj "Empty response from the model" := rfl
  cases htr : r.truthy with
  | false => simp [proposal_flow, hresp, htr]
  | true =>
    simp only [proposal_flow, hresp, htr, htax, ha, Bool.not_true, Bool.false_eq_true,
      if_false, if_true]
    rfl

/-- Closed instance of C3's amended theorem. -/
theorem empty_body_error_witness :
    analyze_details_with_bedrock "need tax help" (Val.obj []) (.body "")
      = errObj "Empty response from the model" ∧
    proposal_flow "need tax help" (.body "") .idle
        { initState with response := some (Val.obj []) }
      = .ok { initState with response := some (Val.obj []) } := by
  have h := empty_body_error "need tax help" "x" "need tax help" (Val.obj [])
    { initState with response := some (Val.obj []) } (Val.obj []) .idle rfl (by decide)
  exact ⟨h.1, h.2.2⟩

/-- C3 counterexample: `generate_proposal`'s empty-body message differs
from the one the claim asserts for both operations. -/
theorem empty_body_message_counterexample :
    generate_proposal "x" (.body "") = errObj "Empty or invalid response from the model" ∧
    errObj "Empty or invalid response from the model" ≠ errObj "Empty response from the model" :=
  ⟨rfl, by simp [errObj]⟩

end ConvProposal
